import Mathlib

/-!
Verification development for the consultant-matching application
(conversational requirement extraction + vector matching engine).

The frontend TypeScript client (api.ts, ChatInterface.tsx, FindMatchForm.tsx,
ChatPage, ConsultantResultsPage) is embedded directly from the source.
The Python backend handlers (chat state machine, role-match orchestrator,
score normalization, overview aggregator) are not part of the given sources;
where a property is decided by that code, the corresponding definition is
modelled from the specification and marked as such in its doc comment.
-/

namespace ConsultantMatch

/-- Skill/occurrence pair, from the SkillCount interface in api.ts. -/
structure SkillCount where
  skill : String
  count : Nat
deriving Repr, DecidableEq

/-- Overview payload, from the OverviewData interface in api.ts
(cvCount, uniqueSkillsCount, topSkills). -/
structure OverviewData where
  cvCount : Nat
  uniqueSkillsCount : Nat
  topSkills : List SkillCount
deriving Repr, DecidableEq

/-- A chat message, from the ChatMessage interface in api.ts:
role is "user" or "assistant". -/
structure ChatMessage where
  role : String
  content : String
deriving Repr, DecidableEq

/-- A role specification, from the RoleQuery interface in api.ts. -/
structure RoleQuery where
  title : String
  description : String
  query : String
  requiredSkills : List String
deriving Repr, DecidableEq

/-- A consultant profile, from the Consultant interface
(src/unnamed/part_001).  Optional TypeScript fields become Option;
the numeric matchScore is an integer percentage per the spec. -/
structure Consultant where
  id : Option String
  name : String
  email : Option String
  phone : Option String
  skills : List String
  availability : String
  matchScore : Option Int
  experience : Option String
  education : Option String
  hasResume : Option Bool
  resumeId : Option String
deriving Repr, DecidableEq

/-- A chat turn response, from the ChatResponse interface in api.ts. -/
structure ChatResponse where
  role : String
  content : String
  isComplete : Bool
  roles : Option (List RoleQuery)
deriving Repr, DecidableEq

/-- One role paired with its matched consultants, from the
RoleMatchResult interface in api.ts. -/
structure RoleMatchResult where
  role : RoleQuery
  consultants : List Consultant
deriving Repr, DecidableEq

/-- JavaScript String.prototype.trim: strip whitespace from both ends.
Embedded over the character list of the string. -/
def jsTrim (s : String) : String :=
  ⟨((s.data.dropWhile Char.isWhitespace).reverse.dropWhile Char.isWhitespace).reverse⟩

/-- JavaScript String.prototype.startsWith, embedded over character lists. -/
def strStartsWith (s pre : String) : Bool :=
  pre.data.isPrefixOf s.data

/-- JavaScript String.prototype.includes, embedded over character lists:
does sub occur as a contiguous substring of s. -/
def strContains (s sub : String) : Bool :=
  s.data.tails.any (fun t => sub.data.isPrefixOf t)

/-- buildApiUrl from api.ts: if API_BASE_URL is "/api" or starts with "/",
append the endpoint directly; otherwise insert the "/api" segment. -/
def buildApiUrl (apiBaseUrl endpoint : String) : String :=
  if apiBaseUrl = "/api" ∨ strStartsWith apiBaseUrl "/" = true then
    apiBaseUrl ++ endpoint
  else
    apiBaseUrl ++ "/api" ++ endpoint

/-- Boolean success test for Except results (models whether a client
call returned normally or threw). -/
def exceptIsOk {ε α : Type} : Except ε α → Bool
  | .ok _ => true
  | .error _ => false

/-- getOverview from api.ts as a function of the HTTP response it saw:
an ok response yields the parsed body, a failed response throws
("Failed to fetch overview: " plus the status text). -/
def getOverview (ok : Bool) (body : OverviewData) (statusText : String) :
    Except String OverviewData :=
  if ok then .ok body else .error ("Failed to fetch overview: " ++ statusText)

/-- The response handling of matchConsultantsByRoles from api.ts: an ok
response yields the parsed role results, a failed response throws. -/
def matchConsultantsByRoles (ok : Bool) (body : List RoleMatchResult)
    (errMsg : String) : Except String (List RoleMatchResult) :=
  if ok then .ok body else .error errMsg

/-- The response handling of sendChatMessage from api.ts: an ok response
yields the parsed ChatResponse, a failed response throws. -/
def sendChatMessage (ok : Bool) (body : ChatResponse) (errMsg : String) :
    Except String ChatResponse :=
  if ok then .ok body else .error errMsg

/-- The legacy match fetch in ConsultantResultsPage.tsx (POST to
/consultants/match): an ok response yields the parsed consultant list,
a failed response throws with the endpoint, status and error message. -/
def legacyMatch (ok : Bool) (body : List Consultant) (status : Nat)
    (errMsg : String) : Except String (List Consultant) :=
  if ok then .ok body
  else .error ("POST /consultants/match (" ++ toString status ++ "): " ++ errMsg)

/-- fetchOverview from ChatPage (src/unnamed/part_001, both revisions):
on success the fetched overview is stored; on a thrown error the page
falls back to the zero snapshot cvCount 0 / uniqueSkillsCount 0 /
topSkills []. -/
def fetchOverview (result : Except String OverviewData) : OverviewData :=
  match result with
  | .ok data => data
  | .error _ => ⟨0, 0, []⟩

/-- handleSubmit from FindMatchForm.tsx: the guard rejects blank or
over-limit descriptions before onMatch is invoked; otherwise the trimmed
description is submitted (maxCharacters = 5000). -/
def handleSubmit (description : String) : Option String :=
  if jsTrim description = "" || description.length > 5000 then
    none
  else
    some (jsTrim description)

/-- Observable outcome of one handleSend turn in ChatInterface.tsx:
the message list afterwards, the request body sent to /chat (none when
the guard rejected the turn), and the roles passed to onComplete
(none when onComplete was not scheduled). -/
structure ChatTurnResult where
  messages : List ChatMessage
  sent : Option (List ChatMessage)
  completedRoles : Option (List RoleQuery)
deriving Repr, DecidableEq

/-- handleSend from ChatInterface.tsx, as a function of the component
state (messages, input, loading) and of the result of the
sendChatMessage call (an Except: ok response or thrown error).
Mirrors the source: blank input or loading aborts the turn; otherwise
the trimmed user message is appended, the full new list is sent, and on
success the assistant content is appended (onComplete fires when
isComplete and roles is present), while on error a fixed apology
message is appended and onComplete does not fire. -/
def handleSend (messages : List ChatMessage) (input : String) (loading : Bool)
    (result : Except String ChatResponse) : ChatTurnResult :=
  if jsTrim input = "" ∨ loading = true then
    ⟨messages, none, none⟩
  else
    let userMessage : ChatMessage := ⟨"user", jsTrim input⟩
    let newMessages := messages ++ [userMessage]
    match result with
    | .ok response =>
        ⟨newMessages ++ [⟨"assistant", response.content⟩],
         some newMessages,
         if response.isComplete then response.roles else none⟩
    | .error _ =>
        ⟨newMessages ++ [⟨"assistant", "Sorry, I encountered an error. Please try again."⟩],
         some newMessages,
         none⟩

/-- Result of the extractRoles language-understanding collaborator, from
the external-interface contract of the spec:
extractRoles(history) -> (reply, isComplete, roles?). -/
structure ExtractRolesResult where
  reply : String
  isComplete : Bool
  roles : Option (List RoleQuery)
deriving Repr, DecidableEq

/-- Modelled from the spec: the backend /chat conversation state machine
is not among the given sources (only the client wrapper sendChatMessage
is).  Per spec 4.1 and 7, given the outcome of the extractRoles
collaborator call, the machine validates the returned role list before
declaring completion: a completion signal with an absent or empty role
list is treated as still gathering and answered with a re-prompt, and a
failed extraction call degrades to an apology turn with isComplete
false.  The re-prompt and apology texts are parameters since the spec
fixes only their presence, not their wording. -/
def chatTurn (extraction : Except String ExtractRolesResult)
    (repromptMsg apologyMsg : String) : ChatResponse :=
  match extraction with
  | .error _ => ⟨"assistant", apologyMsg, false, none⟩
  | .ok e =>
    match e.isComplete, e.roles with
    | true, some (r :: rs) => ⟨"assistant", e.reply, true, some (r :: rs)⟩
    | true, some [] => ⟨"assistant", repromptMsg, false, none⟩
    | true, none => ⟨"assistant", repromptMsg, false, none⟩
    | false, _ => ⟨"assistant", e.reply, false, e.roles⟩

/-- Modelled from the spec: the backend handler for
POST /consultants/match-roles (the Role Match Orchestrator) is not among
the given sources (only the fetch wrapper matchConsultantsByRoles is).
Per spec 4.4 and 8, an empty role list is rejected as a caller error,
and otherwise each input role is paired, in input order, with the
consultants produced for it by the Query Builder + Similarity Search
step (abstracted here as the search argument), zero-match roles
included. -/
def matchRoles (search : RoleQuery → List Consultant) :
    List RoleQuery → Except String (List RoleMatchResult)
  | [] => .error "roles list must be non-empty"
  | r :: rs => .ok ((r :: rs).map (fun q => ⟨q, search q⟩))

/-- Modelled from the spec: the backend score normalization (raw store
similarity to integer matchScore) is not among the given sources.  Per
spec 4.3 and 9 it is a monotonic map clamped to the integers 0..100;
the design note suggests a linear rescale of a [0,1] similarity, so the
model takes clamp(floor(raw * 100), 0, 100) with the raw similarity as
a rational. -/
def matchScoreOfSimilarity (raw : ℚ) : ℤ :=
  min 100 (max 0 ⌊raw * 100⌋)

/-- Stable insertion into a list sorted by descending count: the new
element goes after every element with a greater or equal count, so equal
counts keep first-encountered order. -/
def insertByCountDesc (x : SkillCount) : List SkillCount → List SkillCount
  | [] => [x]
  | y :: ys => if y.count < x.count then x :: y :: ys else y :: insertByCountDesc x ys

/-- Stable sort by descending count. -/
def sortByCountDesc : List SkillCount → List SkillCount
  | [] => []
  | x :: xs => insertByCountDesc x (sortByCountDesc xs)

/-- Modelled from the spec: the backend /overview handler (the Overview
Aggregator) is not among the given sources (only the client getOverview
is).  Per spec 3 and 4.5: cvCount is the corpus size,
uniqueSkillsCount the number of distinct skill strings across the
corpus, and topSkills the top 10 skills by per-consultant-deduplicated
occurrence count, descending, ties in first-encountered order. -/
def computeOverview (corpus : List Consultant) : OverviewData :=
  let distinct := ((corpus.map (fun c => c.skills)).flatten).eraseDups
  let counts := distinct.map
    (fun s => SkillCount.mk s ((corpus.filter (fun c => c.skills.contains s)).length))
  ⟨corpus.length, distinct.length, (sortByCountDesc counts).take 10⟩

/-- A string all of whose characters are whitespace trims to the empty
string (the JS falsiness test on a trimmed string). -/
theorem jsTrim_eq_empty_of_whitespace (s : String)
    (h : ∀ c ∈ s.data, c.isWhitespace = true) : jsTrim s = "" := by
  unfold jsTrim
  have h1 : s.data.dropWhile Char.isWhitespace = [] := by
    rw [List.dropWhile_eq_nil_iff]
    exact h
  rw [h1]
  rfl

/-- Sample role specification used by concrete witnesses. -/
def sampleRole : RoleQuery :=
  ⟨"Backend Engineer", "Builds the API", "backend engineer python api", ["Python"]⟩

/-- Second sample role specification used by concrete witnesses. -/
def sampleRole2 : RoleQuery :=
  ⟨"Designer", "Designs the UI", "product designer figma", ["Figma"]⟩

/-- Sample consultant used by concrete witnesses. -/
def sampleConsultant : Consultant :=
  ⟨some "c1", "Ada", none, none, ["Python", "Go"], "available",
   some 87, some "10 years of backend work.", none, some true, some "r1"⟩

/-- Sample search collaborator used by witnesses: one hit for the
backend role, none for any other role. -/
def sampleSearch (q : RoleQuery) : List Consultant :=
  if q.title = "Backend Engineer" then [sampleConsultant] else []

/-- C1: for every non-empty role list, the role-based match operation
returns exactly one RoleMatchResult per input role, in input order, and
a role matching zero consultants is still present, paired with the
(empty) consultant list its search produced. -/
theorem role_match_one_result_per_role
    (search : RoleQuery → List Consultant) (roles : List RoleQuery)
    (h : roles ≠ []) :
    ∃ results, matchRoles search roles = .ok results ∧
      results.length = roles.length ∧
      results.map RoleMatchResult.role = roles ∧
      ∀ res ∈ results, res.consultants = search res.role := by
  obtain ⟨r, rs, rfl⟩ := List.exists_cons_of_ne_nil h
  have hcomp : (RoleMatchResult.role ∘ fun q =>
      ({ role := q, consultants := search q } : RoleMatchResult)) = fun q => q := rfl
  refine ⟨(r :: rs).map (fun q => ⟨q, search q⟩), rfl, by simp, by simp [hcomp], ?_⟩
  intro res hres
  rw [List.mem_map] at hres
  obtain ⟨q, _, rfl⟩ := hres
  rfl

/-- Witness for C1 at a concrete two-role request where the second role
matches zero consultants. -/
theorem role_match_one_result_per_role_witness :
    ∃ results, matchRoles sampleSearch [sampleRole, sampleRole2] = .ok results ∧
      results.length = [sampleRole, sampleRole2].length ∧
      results.map RoleMatchResult.role = [sampleRole, sampleRole2] ∧
      ∀ res ∈ results, res.consultants = sampleSearch res.role :=
  role_match_one_result_per_role sampleSearch [sampleRole, sampleRole2] (by decide)

/-- C2: the score normalization yields an integer in [0,100] for every
raw similarity (including out-of-range values) and is monotone. -/
theorem matchScore_bounded_and_monotone (r s : ℚ) :
    (0 ≤ matchScoreOfSimilarity r ∧ matchScoreOfSimilarity r ≤ 100) ∧
      (r ≤ s → matchScoreOfSimilarity r ≤ matchScoreOfSimilarity s) := by
  unfold matchScoreOfSimilarity
  refine ⟨⟨le_min (by norm_num) (le_max_left 0 _), min_le_left _ _⟩, ?_⟩
  intro hrs
  refine min_le_min le_rfl (max_le_max le_rfl ?_)
  exact Int.floor_le_floor (mul_le_mul_of_nonneg_right hrs (by norm_num))

/-- Witness for C2 at the concrete raw similarities 0 and 1. -/
theorem matchScore_bounded_and_monotone_witness :
    (0 ≤ matchScoreOfSimilarity 0 ∧ matchScoreOfSimilarity 0 ≤ 100) ∧
      matchScoreOfSimilarity 0 ≤ matchScoreOfSimilarity 1 :=
  ⟨(matchScore_bounded_and_monotone 0 1).1,
   (matchScore_bounded_and_monotone 0 1).2 (by decide)⟩

/-- C3: a chat turn never reports isComplete with an absent or empty
role list; in particular, an extraction result that signals completion
with an empty roles array is answered with the re-prompt message and
isComplete false. -/
theorem chat_completion_requires_roles
    (extraction : Except String ExtractRolesResult) (rp ap : String) :
    ((chatTurn extraction rp ap).isComplete = true →
        ∃ r rs, (chatTurn extraction rp ap).roles = some (r :: rs)) ∧
      ∀ reply, chatTurn (.ok ⟨reply, true, some []⟩) rp ap =
        ⟨"assistant", rp, false, none⟩ := by
  constructor
  · intro hc
    match extraction with
    | .error e => simp [chatTurn] at hc
    | .ok e =>
      match he : e.isComplete, hr : e.roles with
      | true, some (r :: rs) =>
        refine ⟨r, rs, ?_⟩
        simp [chatTurn, he, hr]
      | true, some [] => simp [chatTurn, he, hr] at hc
      | true, none => simp [chatTurn, he, hr] at hc
      | false, _ => simp [chatTurn, he] at hc
  · intro reply
    rfl

/-- Witness for C3 at a concrete completed extraction with one role. -/
theorem chat_completion_requires_roles_witness :
    ∃ r rs,
      (chatTurn (.ok ⟨"done", true, some [sampleRole]⟩) "more?" "apology").roles =
        some (r :: rs) :=
  (chat_completion_requires_roles (.ok ⟨"done", true, some [sampleRole]⟩)
    "more?" "apology").1 (by rfl)

/-- C4: when the extraction call fails behind a non-blank chat turn, the
turn ends with the fixed apology appended as an assistant message, no
completion is signalled, and the prior history is preserved intact. -/
theorem chat_turn_failure_recoverable
    (messages : List ChatMessage) (input err : String)
    (h : jsTrim input ≠ "") :
    (handleSend messages input false (.error err)).messages =
        messages ++ [⟨"user", jsTrim input⟩,
          ⟨"assistant", "Sorry, I encountered an error. Please try again."⟩] ∧
      (handleSend messages input false (.error err)).completedRoles = none ∧
      ∃ tail, (handleSend messages input false (.error err)).messages =
        messages ++ tail := by
  refine ⟨?_, ?_, ?_⟩
  · simp [handleSend, h]
  · simp [handleSend, h]
  · refine ⟨[⟨"user", jsTrim input⟩,
      ⟨"assistant", "Sorry, I encountered an error. Please try again."⟩], ?_⟩
    simp [handleSend, h]

/-- Witness for C4 at a concrete failed turn. -/
theorem chat_turn_failure_recoverable_witness :
    (handleSend [⟨"assistant", "Hi!"⟩] "I need a team" false
        (.error "network down")).messages =
      [⟨"assistant", "Hi!"⟩] ++ [⟨"user", jsTrim "I need a team"⟩,
        ⟨"assistant", "Sorry, I encountered an error. Please try again."⟩] ∧
      (handleSend [⟨"assistant", "Hi!"⟩] "I need a team" false
        (.error "network down")).completedRoles = none ∧
      ∃ tail, (handleSend [⟨"assistant", "Hi!"⟩] "I need a team" false
        (.error "network down")).messages = [⟨"assistant", "Hi!"⟩] ++ tail :=
  chat_turn_failure_recoverable [⟨"assistant", "Hi!"⟩] "I need a team"
    "network down" (by decide)

/-- C5 counterexample: a failed overview fetch is converted by
fetchOverview in ChatPage into the zero snapshot, which is exactly the
state produced by a successful fetch over an empty corpus — the failure
is not surfaced and is indistinguishable from a genuinely empty
result. -/
theorem overview_failure_masked :
    fetchOverview (getOverview false ⟨3, 2, [⟨"Python", 2⟩]⟩ "Internal Server Error") =
        ⟨0, 0, []⟩ ∧
      fetchOverview (getOverview true ⟨0, 0, []⟩ "OK") = ⟨0, 0, []⟩ :=
  ⟨rfl, rfl⟩

/-- C5 amended: all four API-layer client operations (getOverview,
matchConsultantsByRoles, sendChatMessage, the legacy match fetch)
surface a failed response as a thrown error and never return a
successful value, but fetchOverview in ChatPage replaces any thrown
overview error by the zero snapshot instead of surfacing it. -/
theorem client_failures_surface_not_empty_success
    (body : OverviewData) (statusText : String)
    (rbody : List RoleMatchResult) (cbody : ChatResponse)
    (lbody : List Consultant) (status : Nat)
    (errMsg chatErr legacyErr failMsg : String) :
    exceptIsOk (getOverview false body statusText) = false ∧
      exceptIsOk (matchConsultantsByRoles false rbody errMsg) = false ∧
      exceptIsOk (sendChatMessage false cbody chatErr) = false ∧
      exceptIsOk (legacyMatch false lbody status legacyErr) = false ∧
      fetchOverview (.error failMsg) = ⟨0, 0, []⟩ :=
  ⟨rfl, rfl, rfl, rfl, rfl⟩

/-- C6: the overview of an empty corpus is cvCount 0,
uniqueSkillsCount 0 and an empty topSkills list, with no error. -/
theorem overview_empty_corpus : computeOverview [] = ⟨0, 0, []⟩ := rfl

/-- C7: whenever a chat turn issues a request, the body is exactly the
full prior history plus the new trimmed user message, and after every
turn (request or not, success or failure) the new message list extends
the old one — the history is append-only. -/
theorem chat_history_full_resend_append_only
    (messages : List ChatMessage) (input : String) (loading : Bool)
    (result : Except String ChatResponse) :
    (∀ sent, (handleSend messages input loading result).sent = some sent →
        sent = messages ++ [⟨"user", jsTrim input⟩]) ∧
      ∃ tail, (handleSend messages input loading result).messages =
        messages ++ tail := by
  by_cases hcond : jsTrim input = "" ∨ loading = true
  · constructor
    · intro sent hs
      unfold handleSend at hs
      rw [if_pos hcond] at hs
      simp at hs
    · refine ⟨[], ?_⟩
      unfold handleSend
      rw [if_pos hcond]
      simp
  · cases result with
    | ok response =>
      constructor
      · intro sent hs
        unfold handleSend at hs
        rw [if_neg hcond] at hs
        simp at hs
        exact hs.symm
      · refine ⟨[⟨"user", jsTrim input⟩, ⟨"assistant", response.content⟩], ?_⟩
        unfold handleSend
        rw [if_neg hcond]
        simp
    | error e =>
      constructor
      · intro sent hs
        unfold handleSend at hs
        rw [if_neg hcond] at hs
        simp at hs
        exact hs.symm
      · refine ⟨[⟨"user", jsTrim input⟩,
          ⟨"assistant", "Sorry, I encountered an error. Please try again."⟩], ?_⟩
        unfold handleSend
        rw [if_neg hcond]
        simp

/-- Witness for C7 at a concrete successful turn. -/
theorem chat_history_full_resend_append_only_witness :
    ([⟨"assistant", "Hi!"⟩, ⟨"user", "I need a backend engineer"⟩] :
        List ChatMessage) =
      [⟨"assistant", "Hi!"⟩] ++ [⟨"user", jsTrim "I need a backend engineer"⟩] ∧
      ∃ tail, (handleSend [⟨"assistant", "Hi!"⟩] "I need a backend engineer" false
        (.ok ⟨"assistant", "Got it", false, none⟩)).messages =
          [⟨"assistant", "Hi!"⟩] ++ tail :=
  ⟨(chat_history_full_resend_append_only [⟨"assistant", "Hi!"⟩]
      "I need a backend engineer" false (.ok ⟨"assistant", "Got it", false, none⟩)).1
      [⟨"assistant", "Hi!"⟩, ⟨"user", "I need a backend engineer"⟩] (by decide),
   (chat_history_full_resend_append_only [⟨"assistant", "Hi!"⟩]
      "I need a backend engineer" false (.ok ⟨"assistant", "Got it", false, none⟩)).2⟩

/-- C8: whitespace-only input is rejected by both submission paths
before any request: handleSubmit in FindMatchForm never invokes onMatch,
and handleSend in ChatInterface issues no request and leaves the history
untouched. -/
theorem blank_input_rejected_before_request
    (s : String) (messages : List ChatMessage) (loading : Bool)
    (result : Except String ChatResponse)
    (h : ∀ c ∈ s.data, c.isWhitespace = true) :
    handleSubmit s = none ∧
      (handleSend messages s loading result).sent = none ∧
      (handleSend messages s loading result).messages = messages := by
  have ht := jsTrim_eq_empty_of_whitespace s h
  refine ⟨?_, ?_, ?_⟩
  · simp [handleSubmit, ht]
  · unfold handleSend
    rw [if_pos (Or.inl ht)]
  · unfold handleSend
    rw [if_pos (Or.inl ht)]

/-- Witness for C8 at a concrete whitespace-only input. -/
theorem blank_input_rejected_before_request_witness :
    handleSubmit " \t " = none ∧
      (handleSend [] " \t " false (.error "unused")).sent = none ∧
      (handleSend [] " \t " false (.error "unused")).messages = [] :=
  blank_input_rejected_before_request " \t " [] false (.error "unused") (by decide)

/-- C9: the role-based match operation rejects an empty role list as a
caller error instead of returning a successful empty role array. -/
theorem role_match_rejects_empty_role_list
    (search : RoleQuery → List Consultant) :
    matchRoles search [] = .error "roles list must be non-empty" ∧
      exceptIsOk (matchRoles search []) = false :=
  ⟨rfl, rfl⟩

/-- C10 counterexample: with the base URL "/cv" (a relative base other
than "/api") and endpoint "/consultants", buildApiUrl returns
"/cv/consultants", which neither starts with nor even contains the
"/api" path prefix — so the produced URL is not always routed under
"/api". -/
theorem buildApiUrl_not_always_under_api :
    buildApiUrl "/cv" "/consultants" = "/cv/consultants" ∧
      strStartsWith "/cv/consultants" "/api" = false ∧
      strContains "/cv/consultants" "/api" = false := by
  refine ⟨by rfl, by decide, by decide⟩

/-- C10 amended: buildApiUrl appends the endpoint directly whenever the
base starts with "/" (the "= /api" test is subsumed), and inserts the
"/api" segment otherwise; the result is under the "/api" prefix for the
default base "/api" and for any base not starting with "/", but not
necessarily for other relative bases. -/
theorem buildApiUrl_branches (base endpoint : String) :
    (strStartsWith base "/" = true → buildApiUrl base endpoint = base ++ endpoint) ∧
      (strStartsWith base "/" = false →
        buildApiUrl base endpoint = base ++ "/api" ++ endpoint) ∧
      buildApiUrl "/api" endpoint = "/api" ++ endpoint := by
  refine ⟨?_, ?_, ?_⟩
  · intro hs
    unfold buildApiUrl
    rw [if_pos (Or.inr hs)]
  · intro hs
    unfold buildApiUrl
    rw [if_neg ?_]
    intro hx
    rcases hx with hx | hx
    · subst hx
      exact absurd hs (by decide)
    · rw [hs] at hx
      exact Bool.false_ne_true hx
  · unfold buildApiUrl
    rw [if_pos (Or.inl rfl)]

/-- Witness for the amended statement of C10 at the default relative base and
at the development absolute base. -/
theorem buildApiUrl_branches_witness :
    buildApiUrl "/api" "/overview" = "/api" ++ "/overview" ∧
      buildApiUrl "http://localhost:8000" "/overview" =
        "http://localhost:8000" ++ "/api" ++ "/overview" :=
  ⟨(buildApiUrl_branches "/api" "/overview").1 (by decide),
   (buildApiUrl_branches "http://localhost:8000" "/overview").2.1 (by decide)⟩

end ConsultantMatch
